import Mathlib

/-!
Shallow embedding of the Wazper WhatsApp blaster core
(`services/whatsapp.js`: the `WhatsAppService` class) and of the campaign
dispatch loop, together with theorems settling the specification claims.

The service's JavaScript `Map`s (`sessions`, `retryCount`,
`lastConnectionTime`) are embedded as association lists keyed by the numeric
account id.  Database rows (Sequelize `Account`, `Campaign`,
`CampaignMessage`, `ActivityLog`) are embedded as structures held in
association lists; `Model.update({...}, {where: {id}})` becomes a keyed
in-place update that is a no-op when the row is absent, exactly like the SQL
`UPDATE ... WHERE id = ?`.  Wall-clock instants (`Date.now()`) are `Nat`
milliseconds supplied by the caller.  Externally produced outcomes (the
transport's send result, the campaign status observed by each loop
iteration's `findByPk`) are oracles passed in as functions of the iteration
index, which is the standard shallow embedding of concurrent interference.
-/

namespace Wazper

/-- Lookup in an association list, embedding JavaScript `map.get(k)`. -/
def mget {α : Type} : List (Nat × α) → Nat → Option α
  | [], _ => none
  | p :: rest, k => if p.1 = k then some p.2 else mget rest k

/-- Deletion from an association list, embedding `map.delete(k)`. -/
def mdel {α : Type} : List (Nat × α) → Nat → List (Nat × α)
  | [], _ => []
  | p :: rest, k => if p.1 = k then mdel rest k else p :: mdel rest k

/-- Insert/overwrite in an association list, embedding `map.set(k, v)`. -/
def mset {α : Type} (m : List (Nat × α)) (k : Nat) (v : α) : List (Nat × α) :=
  (k, v) :: mdel m k

/-- Keyed row update, embedding `Model.update(fields, {where: {id: k}})`:
every row whose key matches is transformed, others (and a missing row) are
untouched. -/
def mupd {α : Type} : List (Nat × α) → Nat → (α → α) → List (Nat × α)
  | [], _, _ => []
  | p :: rest, k, f =>
      (if p.1 = k then (p.1, f p.2) else p) :: mupd rest k f

/-- Persisted `Account.status` values written by the service. -/
inductive AccountStatus
  | disconnected
  | connecting
  | connected
  | reconnecting
  | error
deriving DecidableEq, Repr

/-- The columns of the `Account` row that the service reads or writes. -/
structure AccountRow where
  name : Option String
  phone : Option String
  status : AccountStatus
  qr_code : Option String
  last_connected : Option Nat
deriving DecidableEq, Repr

/-- Row of the `ActivityLog` table (`account_id`, `action`, `description`). -/
structure LogEntry where
  account_id : Nat
  action : String
  description : String
deriving DecidableEq, Repr

/-- The Baileys `DisconnectReason` enumeration, embedded as an abstract
closed variant type (the service only compares codes for equality). -/
inductive DisconnectReason
  | badSession
  | connectionClosed
  | connectionLost
  | connectionReplaced
  | loggedOut
  | restartRequired
  | timedOut
  | forbidden
  | banned
  | multideviceMismatch
deriving DecidableEq, Repr

/-- State of the `WhatsAppService` singleton together with the account/log
tables it persists to, plus ghost fields that record externally observable
actions: `liveHandles` tracks `(accountId, socket)` pairs opened by
`makeWASocket` and not yet logged out or closed by the transport;
`logouts` records every socket on which `sock.logout()` was invoked;
`scheduledReconnects` records every `(accountId, delayMs)` reconnect timer
armed by `setTimeout`. -/
structure St where
  sessions : List (Nat × Nat)
  retryCount : List (Nat × Nat)
  lastConnectionTime : List (Nat × Nat)
  accounts : List (Nat × AccountRow)
  logs : List LogEntry
  liveHandles : List (Nat × Nat)
  logouts : List Nat
  scheduledReconnects : List (Nat × Nat)
deriving DecidableEq, Repr

/-- `this.CONNECTION_COOLDOWN = 30000` (milliseconds). -/
def CONNECTION_COOLDOWN : Nat := 30000

/-- Errors thrown by `connectAccount`, structured instead of the JS message
strings (`Rate limited: Wait {n}s ...` carries `remainingSeconds`). -/
inductive ConnErr
  | rateLimited (remainingSeconds : Nat)
  | accountNotFound
deriving DecidableEq, Repr

/-- Persisted status update `models.Account.update({status}, {where:{id}})`. -/
def setStatus (s : St) (accountId : Nat) (st : AccountStatus) : St :=
  { s with accounts := mupd s.accounts accountId (fun a => { a with status := st }) }

/-- The rate-limit check opening `connectAccount` (source lines 79-86),
i.e. the Rate Limiter's reservation test: `none` = allowed, `some r` =
rejected with `r` remaining seconds.  The check fires only when a prior
timestamp exists, is JS-truthy (non-zero), and less than
`CONNECTION_COOLDOWN` ms have elapsed; the remaining time is
`Math.ceil((COOLDOWN - (now - lastAttempt)) / 1000)`. -/
def tryReserve (m : List (Nat × Nat)) (accountId now : Nat) : Option Nat :=
  match mget m accountId with
  | some lastAttempt =>
      if lastAttempt ≠ 0 ∧ now - lastAttempt < CONNECTION_COOLDOWN then
        some ((CONNECTION_COOLDOWN - (now - lastAttempt) + 999) / 1000)
      else none
  | none => none

/-- `WhatsAppService.connectAccount(accountId)`.

The rate-limit check and timestamp recording mirror lines 79-88 of the
source: the check fires only when a prior timestamp exists, is non-zero
(JS truthiness of `lastAttempt`), and less than `CONNECTION_COOLDOWN` ms
have elapsed; the rejection carries
`Math.ceil((COOLDOWN - elapsed) / 1000)` seconds.  On the allowed path the
current time is recorded *before* the account row is even fetched.  A new
socket (`newSock`, standing for the handle `makeWASocket` returns) is then
created, registered in `sessions` (overwriting any previous entry — the
source never looks at the old entry), and `status=connecting` is persisted.
The JS `catch` block persists `status=error` on every thrown error,
including the rate-limited rejection itself. -/
def connectAccount (s : St) (accountId now newSock : Nat) : St × Except ConnErr Nat :=
  match tryReserve s.lastConnectionTime accountId now with
  | some remainingTime =>
      (setStatus s accountId .error, .error (.rateLimited remainingTime))
  | none =>
      let s := { s with lastConnectionTime := mset s.lastConnectionTime accountId now }
      match mget s.accounts accountId with
      | none =>
          -- throw new Error('Account not found'); the catch persists
          -- status=error (a no-op here since the row is absent).
          (setStatus s accountId .error, .error .accountNotFound)
      | some _ =>
          let s := { s with liveHandles := s.liveHandles ++ [(accountId, newSock)] }
          let s := { s with sessions := mset s.sessions accountId newSock }
          let s := setStatus s accountId .connecting
          (s, .ok newSock)

/-- List-prefix test on characters, auxiliary to `strIncludes`. -/
def chPrefix : List Char → List Char → Bool
  | [], _ => true
  | _ :: _, [] => false
  | c :: cs, d :: ds => c == d && chPrefix cs ds

/-- `hay.includes(sub)` on the underlying character lists. -/
def chIncludes (hay sub : List Char) : Bool :=
  match hay with
  | [] => chPrefix sub []
  | _ :: rest => chPrefix sub hay || chIncludes rest sub

/-- JavaScript `hay.includes(sub)` on strings. -/
def strIncludes (hay sub : String) : Bool :=
  chIncludes hay.data sub.data

/-- `WhatsAppService.shouldAttemptReconnect(statusCode, errorMessage)`. -/
def shouldAttemptReconnect (statusCode : Option DisconnectReason)
    (errorMessage : String) : Bool :=
  if statusCode = some DisconnectReason.loggedOut then false
  else if strIncludes errorMessage "rate limit" then false
  else if statusCode = some DisconnectReason.forbidden ∨
          statusCode = some DisconnectReason.banned then false
  else true

/-- `WhatsAppService.isPermanentError(statusCode)`. -/
def isPermanentError (statusCode : Option DisconnectReason) : Bool :=
  statusCode = some DisconnectReason.forbidden ∨
    statusCode = some DisconnectReason.banned ∨
    statusCode = some DisconnectReason.multideviceMismatch

/-- `WhatsAppService.scheduleReconnect(accountId, disconnectReason)` up to the
point where the `setTimeout` timer is armed (the armed timer is recorded in
the `scheduledReconnects` ghost list; what the timer later does is a separate
transition). -/
def scheduleReconnect (s : St) (accountId : Nat) : St :=
  let currentRetries := (mget s.retryCount accountId).getD 0
  let maxRetries := 5
  if currentRetries ≥ maxRetries then
    let s := setStatus s accountId .error
    { s with retryCount := mdel s.retryCount accountId }
  else
    let delayMs := min (5000 * 3 ^ currentRetries) 300000
    let s := { s with retryCount := mset s.retryCount accountId (currentRetries + 1) }
    let s := setStatus s accountId .reconnecting
    { s with scheduledReconnects := s.scheduledReconnects ++ [(accountId, delayMs)] }

/-- The `connection` field of a Baileys `connection.update` event. -/
inductive ConnState
  | closed
  | opened
  | connectingS
deriving DecidableEq, Repr

/-- The fields of a `connection.update` event that the handler reads:
`qr`, `connection`, and `lastDisconnect?.error` (status code and message). -/
structure ConnUpdate where
  qr : Option String
  connection : Option ConnState
  lastDisconnectCode : Option DisconnectReason
  lastDisconnectMsg : Option String
deriving DecidableEq, Repr

/-- Model of the external `QRCode.toDataURL` encoding (an injective string
encoding; its exact format is irrelevant to the service's logic). -/
def qrToDataURL (q : String) : String :=
  "data:image/png;base64," ++ q

/-- JavaScript `str.split(sep)[0]`: the prefix before the first separator
(or the whole string when the separator is absent). -/
def splitFirst (sep : Char) (str : String) : String :=
  String.mk (str.data.takeWhile (fun c => c != sep))

/-- `accountName = currentAccount?.name || 'device-' + accountId`
(JS `||`: an absent or empty stored name falls back to the device label). -/
def resolveName (currentName : Option String) (accountId : Nat) : String :=
  match currentName with
  | some n => if n ≠ "" then n else "device-" ++ toString accountId
  | none => "device-" ++ toString accountId

/-- Phone detection of the open branch: when `sock.user?.id` is a JS-truthy
string, take the part before `@` and strip the `:device` suffix. -/
def detectPhone (sockUser : Option String) : Option String :=
  match sockUser with
  | some uid =>
      if uid ≠ "" then some (splitFirst ':' (splitFirst '@' uid)) else none
  | none => none

/-- `phoneChanged`: a phone was detected, a previous phone is stored
(JS-truthy) and the two differ. -/
def phoneChangedB (detected current : Option String) : Bool :=
  match detected, current with
  | some dp, some cp => cp != "" && cp != dp
  | _, _ => false

/-- The `connection === 'open'` branch of
`WhatsAppService.handleConnectionUpdate` (source lines 215-269).
`sockUser` is `sock.user?.id`; identity resolution extracts the part of the
id before `@` and strips the `:device` suffix.  `phoneChanged` is set only
when a user id was resolved, a previous phone is stored (JS-truthy), and the
two differ.  The account row is updated with the resolved identity,
`status=connected`, `qr_code=null`, `last_connected=now`, and exactly one
`ActivityLog` row is appended.  The retry/rate-limit maps are not touched
here. -/
def handleConnectionOpen (s : St) (accountId : Nat) (sockUser : Option String)
    (now : Nat) : St :=
  let currentAccount := mget s.accounts accountId
  let currentPhone := currentAccount.bind (fun a => a.phone)
  let accountName := resolveName (currentAccount.bind (fun a => a.name)) accountId
  let detectedPhone := detectPhone sockUser
  let phoneChanged := phoneChangedB detectedPhone currentPhone
  let s := { s with accounts := mupd s.accounts accountId (fun a =>
      { a with name := some accountName, phone := detectedPhone,
               status := .connected, qr_code := none,
               last_connected := some now }) }
  let logDescription :=
    if phoneChanged then
      "Account reconnected with new phone number: " ++ detectedPhone.getD "" ++
        " (previously: " ++ currentPhone.getD "" ++ ")"
    else
      "Account connected successfully" ++
        (match detectedPhone with
         | some dp => if dp ≠ "" then " - Phone: " ++ dp else ""
         | none => "")
  { s with logs := s.logs ++
      [{ account_id := accountId,
         action := if phoneChanged then "phone_updated" else "connected",
         description := logDescription }] }

/-- `WhatsAppService.handleConnectionUpdate(accountId, accountData, update,
sock)`.  `sockHandle` is the socket the handler closure is bound to; a
`closed` connection means that socket's transport link is down, so it leaves
the ghost live-handle set.  The close branch classifies the reason via
`shouldAttemptReconnect` / `isPermanentError` exactly as in source lines
182-214. -/
def handleConnectionUpdate (s : St) (accountId sockHandle : Nat)
    (sockUser : Option String) (u : ConnUpdate) (now : Nat) : St :=
  let s :=
    match u.qr with
    | some q =>
        { s with accounts := mupd s.accounts accountId (fun a =>
            { a with qr_code := some (qrToDataURL q), status := .connecting }) }
    | none => s
  match u.connection with
  | some .closed =>
      let statusCode := u.lastDisconnectCode
      let errorMessage := u.lastDisconnectMsg.getD "Unknown error"
      let s := { s with sessions := mdel s.sessions accountId,
                        liveHandles := s.liveHandles.filter
                          (fun p => p.2 != sockHandle) }
      if shouldAttemptReconnect statusCode errorMessage then
        if ¬ isPermanentError statusCode then
          scheduleReconnect s accountId
        else
          { s with accounts := mupd s.accounts accountId (fun a =>
              { a with status := .error, qr_code := none }) }
      else
        let s := { s with accounts := mupd s.accounts accountId (fun a =>
            { a with status := .disconnected, qr_code := none }) }
        { s with retryCount := mdel s.retryCount accountId,
                 lastConnectionTime := mdel s.lastConnectionTime accountId }
  | some .opened => handleConnectionOpen s accountId sockUser now
  | _ => s

/-- Persisted `Campaign.status` values. -/
inductive CampaignStatus
  | draft
  | running
  | paused
  | completed
  | cancelled
deriving DecidableEq, Repr

/-- The columns of the `Campaign` row used by `sendBulkMessages`. -/
structure CampaignRow where
  account_id : Nat
  status : CampaignStatus
  delay_seconds : Nat
  sent_count : Nat
  failed_count : Nat
  completed_at : Option Nat
deriving DecidableEq, Repr

/-- Persisted `CampaignMessage.status` values written by the dispatcher. -/
inductive CMsgStatus
  | pending
  | sent
  | failed
deriving DecidableEq, Repr

/-- A `CampaignMessage` row.  `sent_at` timestamps are modelled by the
dispatch iteration index at which the send completed. -/
structure CMsg where
  id : Nat
  campaign_id : Nat
  phone : String
  message_text : String
  media_path : Option String
  status : CMsgStatus
  sent_at : Option Nat
  error_message : Option String
deriving DecidableEq, Repr

/-- The campaign-side database visible to `sendBulkMessages`.  The
`messages` list is kept in creation (ascending-id) order, matching the
`ORDER BY id ASC` of the pending-message query. -/
structure CampaignDB where
  campaigns : List (Nat × CampaignRow)
  messages : List CMsg
deriving DecidableEq, Repr

/-- Ghost trace of one dispatch pass: which message was marked sent or
failed, each `await delay(...)` sleep, and the break on a status change. -/
inductive DEvent
  | sentMsg (id : Nat)
  | failedMsg (id : Nat) (err : String)
  | slept (ms : Nat)
  | stopped
deriving DecidableEq, Repr

/-- Result of the dispatch loop: the event trace, the pending messages with
their updated statuses (in order), and the two local counters. -/
structure LoopOut where
  trace : List DEvent
  msgs : List CMsg
  sentCount : Nat
  failedCount : Nat
deriving DecidableEq, Repr

/-- The `for (const messageData of pendingMessages)` loop of
`WhatsAppService.sendBulkMessages` (source lines 530-572).

`statusAt i` is the campaign status observed by the `findByPk` re-read at
iteration `i` (`none` = row gone), modelling concurrent pause/cancel;
`sendAt i` is the outcome of the `sendMessage` call at iteration `i`.
Per the source: the status is re-checked at the top of every iteration and
the loop `break`s when it is not `running`; a successful send marks the
message `sent`, increments `sentCount` and then sleeps `delayMs`; a failed
send marks the message `failed` with the error text, increments
`failedCount`, and proceeds without sleeping. -/
def runLoop (statusAt : Nat → Option CampaignStatus)
    (sendAt : Nat → Except String Unit) (delayMs : Nat) :
    List CMsg → Nat → LoopOut
  | [], _ => ⟨[], [], 0, 0⟩
  | m :: rest, i =>
    if statusAt i = some CampaignStatus.running then
      match sendAt i with
      | .ok _ =>
          let out := runLoop statusAt sendAt delayMs rest (i + 1)
          ⟨DEvent.sentMsg m.id :: DEvent.slept delayMs :: out.trace,
           { m with status := .sent, sent_at := some i } :: out.msgs,
           out.sentCount + 1, out.failedCount⟩
      | .error e =>
          let out := runLoop statusAt sendAt delayMs rest (i + 1)
          ⟨DEvent.failedMsg m.id e :: out.trace,
           { m with status := .failed, error_message := some e } :: out.msgs,
           out.sentCount, out.failedCount + 1⟩
    else ⟨[DEvent.stopped], m :: rest, 0, 0⟩

/-- The session-lookup core of `WhatsAppService.sendMessage` (source lines
310-336, 460): a missing session throws `Account not connected`; otherwise
the call delegates to the socket's send primitive, whose outcome
(`transportSend`, covering both the payload-assembly failures and the
transport result) propagates unchanged.  The source's numeric/string double
lookup collapses onto the single canonical `Nat` key of the model. -/
def sendMessageCore (sessions : List (Nat × Nat)) (accountId : Nat)
    (transportSend : Nat → Except String Unit) : Except String Unit :=
  match mget sessions accountId with
  | none => Except.error "Account not connected"
  | some sock => transportSend sock

/-- `findOne({where: {id: campaignId, status: 'running'}})`. -/
def findRunningCampaign (db : CampaignDB) (cid : Nat) : Option CampaignRow :=
  match mget db.campaigns cid with
  | some c => if c.status = CampaignStatus.running then some c else none
  | none => none

/-- `findAll({where: {campaign_id, status: 'pending'}, order: id ASC})`. -/
def pendingOf (db : CampaignDB) (cid : Nat) : List CMsg :=
  db.messages.filter
    (fun m => m.campaign_id == cid && m.status == CMsgStatus.pending)

/-- Write the updated per-message rows back into the message table. -/
def writeBack (msgs upd : List CMsg) : List CMsg :=
  msgs.map (fun m =>
    match upd.find? (fun u => u.id == m.id) with
    | some u => u
    | none => m)

/-- `WhatsAppService.sendBulkMessages(campaignId)` (source lines 491-608).
The initial `findOne` requires status `running`; when it misses, the
function throws `Campaign not found or not running` and the `catch` block
persists `status=cancelled` on whatever row matches the id before
rethrowing.  Otherwise the dispatch loop runs over the pending messages,
the local counters are added to the campaign's cumulative counters, and the
campaign is marked `completed` when no pending messages remain. -/
def sendBulkMessages (db : CampaignDB) (statusAt : Nat → Option CampaignStatus)
    (sendAt : Nat → Except String Unit) (now : Nat) (cid : Nat) :
    CampaignDB × Except String (Nat × Nat) :=
  match findRunningCampaign db cid with
  | none =>
      ({ db with
          campaigns := mupd db.campaigns cid (fun c => { c with status := .cancelled }) },
       Except.error "Campaign not found or not running")
  | some campaign =>
      let pending := pendingOf db cid
      let out := runLoop statusAt sendAt (campaign.delay_seconds * 1000) pending 0
      let db := { db with messages := writeBack db.messages out.msgs }
      let db := { db with campaigns := mupd db.campaigns cid (fun c =>
          { c with sent_count := c.sent_count + out.sentCount,
                   failed_count := c.failed_count + out.failedCount }) }
      let remaining := (pendingOf db cid).length
      let db :=
        if remaining = 0 then
          { db with campaigns := mupd db.campaigns cid (fun c =>
              { c with status := .completed, completed_at := some now }) }
        else db
      (db, Except.ok (out.sentCount, out.failedCount))

/-- Checks that in a dispatch trace every `slept` event immediately follows
a `sentMsg` event and every `sentMsg` event is immediately followed by a
`slept` event: sleeps happen exactly after successful sends. -/
def sleepsExactlyAfterSends : List DEvent → Bool
  | [] => true
  | DEvent.sentMsg _ :: DEvent.slept _ :: rest => sleepsExactlyAfterSends rest
  | DEvent.sentMsg _ :: _ => false
  | DEvent.slept _ :: _ => false
  | _ :: rest => sleepsExactlyAfterSends rest

/-- Iterated `scheduleReconnect` for one account: the state after `n`
consecutive transient reconnect failures have each invoked the scheduler. -/
def schedIter (s : St) (accountId : Nat) : Nat → St
  | 0 => s
  | n + 1 => scheduleReconnect (schedIter s accountId n) accountId

/-- A concrete connected account row, used as a test fixture. -/
def acctA : AccountRow :=
  { name := some "A", phone := some "111", status := .connected,
    qr_code := none, last_connected := none }

/-- A concrete service state holding only account `1`, used as a fixture. -/
def stA : St :=
  { sessions := [], retryCount := [], lastConnectionTime := [],
    accounts := [(1, acctA)], logs := [], liveHandles := [], logouts := [],
    scheduledReconnects := [] }

/-- A fixture state in which account `1` has accumulated `retryAttempt = 3`. -/
def st9 : St :=
  { sessions := [(1, 100)], retryCount := [(1, 3)], lastConnectionTime := [],
    accounts := [(1, acctA)], logs := [], liveHandles := [(1, 100)],
    logouts := [], scheduledReconnects := [] }

/-- Concrete pending campaign messages, fixtures for the dispatcher. -/
def msgA : CMsg :=
  { id := 1, campaign_id := 9, phone := "p1", message_text := "hi",
    media_path := none, status := .pending, sent_at := none,
    error_message := none }

/-- Second fixture message. -/
def msgB : CMsg :=
  { id := 2, campaign_id := 9, phone := "p2", message_text := "hi",
    media_path := none, status := .pending, sent_at := none,
    error_message := none }

/-- Third fixture message. -/
def msgC : CMsg :=
  { id := 3, campaign_id := 9, phone := "p3", message_text := "hi",
    media_path := none, status := .pending, sent_at := none,
    error_message := none }

/-- A fixture campaign database whose campaign `9` is `paused`. -/
def dbPaused : CampaignDB :=
  { campaigns := [(9, { account_id := 1, status := .paused, delay_seconds := 5,
                        sent_count := 0, failed_count := 0, completed_at := none })],
    messages := [msgA, msgB] }

/-!  Theorems.  First the association-list helper lemmas, then the claim
theorems with their witnesses and counterexamples. -/

theorem mget_mset_self {α : Type} (m : List (Nat × α)) (k : Nat) (v : α) :
    mget (mset m k v) k = some v := by
  simp [mget, mset]

theorem mget_mdel_self {α : Type} (m : List (Nat × α)) (k : Nat) :
    mget (mdel m k) k = none := by
  induction m with
  | nil => rfl
  | cons p rest ih =>
    by_cases h : p.1 = k
    · simpa [mdel, h] using ih
    · simpa [mdel, mget, h] using ih

theorem mget_mupd_self {α : Type} (m : List (Nat × α)) (k : Nat) (f : α → α) :
    mget (mupd m k f) k = (mget m k).map f := by
  induction m with
  | nil => rfl
  | cons p rest ih =>
    by_cases h : p.1 = k
    · simp [mupd, mget, h]
    · simpa [mupd, mget, h] using ih

theorem mget_mupd_of_ne {α : Type} (m : List (Nat × α)) (k k' : Nat) (f : α → α)
    (h : k' ≠ k) : mget (mupd m k f) k' = mget m k' := by
  have hkk : ¬ (k = k') := fun e => h e.symm
  induction m with
  | nil => rfl
  | cons p rest ih =>
    by_cases hp : p.1 = k
    · simpa [mupd, mget, hp, hkk] using ih
    · by_cases hq : p.1 = k'
      · simp [mupd, mget, hp, hq, h, hkk]
      · simpa [mupd, mget, hp, hq] using ih

theorem mget_mset_of_ne {α : Type} (m : List (Nat × α)) (k k' : Nat) (v : α)
    (h : k' ≠ k) : mget (mset m k v) k' = mget m k' := by
  have hkk : ¬ (k = k') := fun e => h e.symm
  have aux : ∀ l : List (Nat × α), mget (mdel l k) k' = mget l k' := by
    intro l
    induction l with
    | nil => rfl
    | cons p rest ih =>
      by_cases hp : p.1 = k
      · simpa [mdel, mget, hp, hkk] using ih
      · by_cases hq : p.1 = k'
        · simp [mdel, mget, hp, hq, h, hkk]
        · simpa [mdel, mget, hp, hq] using ih
  simp [mset, mget, hkk, aux]

/-- Characterization of one `scheduleReconnect` call below the retry
ceiling: the counter becomes `k + 1`, status `reconnecting` is persisted,
and a timer for `min (5000 * 3 ^ k) 300000` ms is armed. -/
theorem scheduleReconnect_eq_of_lt (s : St) (accountId k : Nat)
    (h : (mget s.retryCount accountId).getD 0 = k) (hk : k < 5) :
    scheduleReconnect s accountId =
      { s with
        retryCount := mset s.retryCount accountId (k + 1),
        accounts := mupd s.accounts accountId
          (fun a => { a with status := .reconnecting }),
        scheduledReconnects :=
          s.scheduledReconnects ++ [(accountId, min (5000 * 3 ^ k) 300000)] } := by
  have hge : ¬ (k ≥ 5) := by omega
  simp only [scheduleReconnect, setStatus, h, hge, if_false]

/-- Characterization of `scheduleReconnect` at or above the retry ceiling:
status `error` is persisted, the counter is discarded, and no timer is
armed. -/
theorem scheduleReconnect_eq_of_ge (s : St) (accountId : Nat)
    (h : (mget s.retryCount accountId).getD 0 ≥ 5) :
    scheduleReconnect s accountId =
      { s with
        retryCount := mdel s.retryCount accountId,
        accounts := mupd s.accounts accountId
          (fun a => { a with status := .error }) } := by
  simp only [scheduleReconnect, setStatus, h, if_true]

/-- The sixth consecutive failure: with the retry counter at 5, the
scheduler persists `error`, erases the counter, and arms no timer. -/
theorem scheduleReconnect_give_up (t : St) (aid : Nat) (acct' : AccountRow)
    (hr : mget t.retryCount aid = some 5)
    (ha : mget t.accounts aid = some acct') :
    mget (scheduleReconnect t aid).retryCount aid = none ∧
    (mget (scheduleReconnect t aid).accounts aid).map AccountRow.status =
      some .error ∧
    (scheduleReconnect t aid).scheduledReconnects = t.scheduledReconnects := by
  have E := scheduleReconnect_eq_of_ge t aid (by rw [hr]; simp)
  refine ⟨?_, ?_, ?_⟩ <;> rw [E]
  · exact mget_mdel_self _ _
  · rw [show ({ t with
        retryCount := mdel t.retryCount aid,
        accounts := mupd t.accounts aid
          (fun a => { a with status := AccountStatus.error }) } : St).accounts =
      mupd t.accounts aid (fun a => { a with status := AccountStatus.error })
      from rfl]
    rw [mget_mupd_self, ha]
    rfl

/-- Claim C1: for every account, the reconnection backoff over consecutive
transient failures schedules delays of exactly 5000, 15000, 45000, 135000,
300000 ms (the fifth capped at 300000 by `min (5000 * 3 ^ k) 300000`); each
scheduling increments the retry counter and persists status `reconnecting`,
and once `retryAttempt` has reached 5 a further failure persists status
`error` and schedules no further attempt. -/
theorem backoff_schedule_C1 (s : St) (aid : Nat) (acct : AccountRow)
    (hr : mget s.retryCount aid = none) (ha : mget s.accounts aid = some acct) :
    (mget (schedIter s aid 1).retryCount aid = some 1 ∧
      (mget (schedIter s aid 1).accounts aid).map AccountRow.status =
        some .reconnecting ∧
      (schedIter s aid 1).scheduledReconnects =
        s.scheduledReconnects ++ [(aid, 5000)]) ∧
    (mget (schedIter s aid 2).retryCount aid = some 2 ∧
      (mget (schedIter s aid 2).accounts aid).map AccountRow.status =
        some .reconnecting ∧
      (schedIter s aid 2).scheduledReconnects =
        s.scheduledReconnects ++ [(aid, 5000), (aid, 15000)]) ∧
    (mget (schedIter s aid 3).retryCount aid = some 3 ∧
      (mget (schedIter s aid 3).accounts aid).map AccountRow.status =
        some .reconnecting ∧
      (schedIter s aid 3).scheduledReconnects =
        s.scheduledReconnects ++ [(aid, 5000), (aid, 15000), (aid, 45000)]) ∧
    (mget (schedIter s aid 4).retryCount aid = some 4 ∧
      (mget (schedIter s aid 4).accounts aid).map AccountRow.status =
        some .reconnecting ∧
      (schedIter s aid 4).scheduledReconnects =
        s.scheduledReconnects ++
          [(aid, 5000), (aid, 15000), (aid, 45000), (aid, 135000)]) ∧
    (mget (schedIter s aid 5).retryCount aid = some 5 ∧
      (mget (schedIter s aid 5).accounts aid).map AccountRow.status =
        some .reconnecting ∧
      (schedIter s aid 5).scheduledReconnects =
        s.scheduledReconnects ++
          [(aid, 5000), (aid, 15000), (aid, 45000), (aid, 135000),
           (aid, 300000)]) ∧
    (mget (schedIter s aid 6).retryCount aid = none ∧
      (mget (schedIter s aid 6).accounts aid).map AccountRow.status =
        some .error ∧
      (schedIter s aid 6).scheduledReconnects =
        (schedIter s aid 5).scheduledReconnects) := by
  have e1 : schedIter s aid 1 = scheduleReconnect s aid := rfl
  have E1 := scheduleReconnect_eq_of_lt s aid 0 (by rw [hr]; rfl) (by omega)
  have r1 : mget (schedIter s aid 1).retryCount aid = some 1 := by
    rw [e1, E1]; exact mget_mset_self _ _ _
  have a1 : mget (schedIter s aid 1).accounts aid =
      some { acct with status := .reconnecting } := by
    rw [e1, E1]; simp [mget_mupd_self, ha]
  have d1 : (schedIter s aid 1).scheduledReconnects =
      s.scheduledReconnects ++ [(aid, 5000)] := by
    rw [e1, E1]
    simp [show (min (5000 * 3 ^ 0) 300000 : Nat) = 5000 from by decide]
  have e2 : schedIter s aid 2 = scheduleReconnect (schedIter s aid 1) aid := rfl
  have E2 := scheduleReconnect_eq_of_lt (schedIter s aid 1) aid 1
    (by rw [r1]; rfl) (by omega)
  have r2 : mget (schedIter s aid 2).retryCount aid = some 2 := by
    rw [e2, E2]; exact mget_mset_self _ _ _
  have a2 : mget (schedIter s aid 2).accounts aid =
      some { acct with status := .reconnecting } := by
    rw [e2, E2]; simp [mget_mupd_self, a1]
  have d2 : (schedIter s aid 2).scheduledReconnects =
      s.scheduledReconnects ++ [(aid, 5000), (aid, 15000)] := by
    rw [e2, E2]
    simp [d1, List.append_assoc,
      show (min (5000 * 3 ^ 1) 300000 : Nat) = 15000 from by decide]
  have e3 : schedIter s aid 3 = scheduleReconnect (schedIter s aid 2) aid := rfl
  have E3 := scheduleReconnect_eq_of_lt (schedIter s aid 2) aid 2
    (by rw [r2]; rfl) (by omega)
  have r3 : mget (schedIter s aid 3).retryCount aid = some 3 := by
    rw [e3, E3]; exact mget_mset_self _ _ _
  have a3 : mget (schedIter s aid 3).accounts aid =
      some { acct with status := .reconnecting } := by
    rw [e3, E3]; simp [mget_mupd_self, a2]
  have d3 : (schedIter s aid 3).scheduledReconnects =
      s.scheduledReconnects ++ [(aid, 5000), (aid, 15000), (aid, 45000)] := by
    rw [e3, E3]
    simp [d2, List.append_assoc,
      show (min (5000 * 3 ^ 2) 300000 : Nat) = 45000 from by decide]
  have e4 : schedIter s aid 4 = scheduleReconnect (schedIter s aid 3) aid := rfl
  have E4 := scheduleReconnect_eq_of_lt (schedIter s aid 3) aid 3
    (by rw [r3]; rfl) (by omega)
  have r4 : mget (schedIter s aid 4).retryCount aid = some 4 := by
    rw [e4, E4]; exact mget_mset_self _ _ _
  have a4 : mget (schedIter s aid 4).accounts aid =
      some { acct with status := .reconnecting } := by
    rw [e4, E4]; simp [mget_mupd_self, a3]
  have d4 : (schedIter s aid 4).scheduledReconnects =
      s.scheduledReconnects ++
        [(aid, 5000), (aid, 15000), (aid, 45000), (aid, 135000)] := by
    rw [e4, E4]
    simp [d3, List.append_assoc,
      show (min (5000 * 3 ^ 3) 300000 : Nat) = 135000 from by decide]
  have e5 : schedIter s aid 5 = scheduleReconnect (schedIter s aid 4) aid := rfl
  have E5 := scheduleReconnect_eq_of_lt (schedIter s aid 4) aid 4
    (by rw [r4]; rfl) (by omega)
  have r5 : mget (schedIter s aid 5).retryCount aid = some 5 := by
    rw [e5, E5]; exact mget_mset_self _ _ _
  have a5 : mget (schedIter s aid 5).accounts aid =
      some { acct with status := .reconnecting } := by
    rw [e5, E5]; simp [mget_mupd_self, a4]
  have d5 : (schedIter s aid 5).scheduledReconnects =
      s.scheduledReconnects ++
        [(aid, 5000), (aid, 15000), (aid, 45000), (aid, 135000),
         (aid, 300000)] := by
    rw [e5, E5]
    simp [d4, List.append_assoc,
      show (min (5000 * 3 ^ 4) 300000 : Nat) = 300000 from by decide]
  have e6 : schedIter s aid 6 = scheduleReconnect (schedIter s aid 5) aid := rfl
  obtain ⟨r6', a6', d6'⟩ :=
    scheduleReconnect_give_up (schedIter s aid 5) aid _ r5 a5
  have r6 : mget (schedIter s aid 6).retryCount aid = none := by
    rw [e6]; exact r6'
  have a6 : (mget (schedIter s aid 6).accounts aid).map AccountRow.status =
      some .error := by
    rw [e6]; exact a6'
  have d6 : (schedIter s aid 6).scheduledReconnects =
      (schedIter s aid 5).scheduledReconnects := by
    rw [e6]; exact d6'
  exact ⟨⟨r1, by rw [a1]; rfl, d1⟩, ⟨r2, by rw [a2]; rfl, d2⟩,
    ⟨r3, by rw [a3]; rfl, d3⟩, ⟨r4, by rw [a4]; rfl, d4⟩,
    ⟨r5, by rw [a5]; rfl, d5⟩, r6, a6, d6⟩

/-- Witness for C1 at the concrete fixture state: account `1`, fresh retry
counter; after five schedulings the armed delays are exactly the claimed
sequence, and the sixth failure erases the counter, persists `error`, and
arms nothing new. -/
theorem backoff_schedule_C1_witness :
    (schedIter stA 1 5).scheduledReconnects =
      [(1, 5000), (1, 15000), (1, 45000), (1, 135000), (1, 300000)] ∧
    mget (schedIter stA 1 6).retryCount 1 = none ∧
    (mget (schedIter stA 1 6).accounts 1).map AccountRow.status =
      some AccountStatus.error ∧
    (schedIter stA 1 6).scheduledReconnects =
      (schedIter stA 1 5).scheduledReconnects := by
  have h := backoff_schedule_C1 stA 1 acctA rfl rfl
  refine ⟨?_, h.2.2.2.2.2.1, h.2.2.2.2.2.2.1, h.2.2.2.2.2.2.2⟩
  have := h.2.2.2.2.1.2.2
  simpa [stA] using this

/-- When the limiter allows the attempt, `connectAccount` records the
current timestamp (before any further connect work, and on every outcome)
and never reports a rate-limit rejection. -/
theorem connectAccount_allowed (s : St) (aid now sock : Nat)
    (h : tryReserve s.lastConnectionTime aid now = none) :
    mget (connectAccount s aid now sock).1.lastConnectionTime aid = some now ∧
    ∀ n, (connectAccount s aid now sock).2 ≠
      Except.error (ConnErr.rateLimited n) := by
  cases hacc : mget s.accounts aid with
  | none => simp [connectAccount, h, hacc, setStatus, mget_mset_self]
  | some a => simp [connectAccount, h, hacc, setStatus, mget_mset_self]

/-- When a JS-truthy reservation newer than the cooldown exists,
`connectAccount` rejects with the ceiling-rounded remaining seconds (the
catch block persists `status=error` on the way out). -/
theorem connectAccount_rejected (s : St) (aid now sock l : Nat)
    (h : mget s.lastConnectionTime aid = some l) (h0 : l ≠ 0)
    (hcd : now - l < CONNECTION_COOLDOWN) :
    connectAccount s aid now sock =
      (setStatus s aid .error,
       Except.error (ConnErr.rateLimited
         ((CONNECTION_COOLDOWN - (now - l) + 999) / 1000))) := by
  have ht : tryReserve s.lastConnectionTime aid now =
      some ((CONNECTION_COOLDOWN - (now - l) + 999) / 1000) := by
    simp [tryReserve, h, h0, hcd]
  simp [connectAccount, ht]

/-- A reservation older than the cooldown window no longer blocks. -/
theorem tryReserve_elapsed (m : List (Nat × Nat)) (aid now l : Nat)
    (h : mget m aid = some l) (hcd : CONNECTION_COOLDOWN ≤ now - l) :
    tryReserve m aid now = none := by
  have hc : ¬ (l ≠ 0 ∧ now - l < CONNECTION_COOLDOWN) := by omega
  simp [tryReserve, h, hc]

/-- Claim C5: for every account, a first connect attempt with no prior
reservation is allowed and records its timestamp before the connect work
begins; a second attempt within 30 s of that recorded timestamp is rejected
with a strictly positive remaining-wait value; and once the 30 s window has
elapsed an attempt is allowed again. -/
theorem rate_limiter_C5 (s : St) (aid t1 t2 sock sock2 : Nat)
    (h0 : mget s.lastConnectionTime aid = none) (ht1 : 0 < t1)
    (h12 : t1 ≤ t2) (hw : t2 < t1 + CONNECTION_COOLDOWN) :
    (∀ n, (connectAccount s aid t1 sock).2 ≠
        Except.error (ConnErr.rateLimited n)) ∧
    mget (connectAccount s aid t1 sock).1.lastConnectionTime aid = some t1 ∧
    (∃ r, 0 < r ∧
      (connectAccount (connectAccount s aid t1 sock).1 aid t2 sock2).2 =
        Except.error (ConnErr.rateLimited r)) ∧
    (∀ t3 sock3, t1 + CONNECTION_COOLDOWN ≤ t3 → ∀ n,
      (connectAccount (connectAccount s aid t1 sock).1 aid t3 sock3).2 ≠
        Except.error (ConnErr.rateLimited n)) := by
  have hCD : CONNECTION_COOLDOWN = 30000 := rfl
  have hres : tryReserve s.lastConnectionTime aid t1 = none := by
    simp [tryReserve, h0]
  obtain ⟨hrec, hok⟩ := connectAccount_allowed s aid t1 sock hres
  refine ⟨hok, hrec, ?_, ?_⟩
  · have hE := connectAccount_rejected (connectAccount s aid t1 sock).1 aid t2
      sock2 t1 hrec (by omega) (by omega)
    refine ⟨(CONNECTION_COOLDOWN - (t2 - t1) + 999) / 1000, ?_, by rw [hE]⟩
    have hnum : 1000 ≤ CONNECTION_COOLDOWN - (t2 - t1) + 999 := by omega
    have := (Nat.le_div_iff_mul_le (k := 1000) (by norm_num)).mpr
      (by omega : 1 * 1000 ≤ CONNECTION_COOLDOWN - (t2 - t1) + 999)
    omega
  · intro t3 sock3 h3 n
    have hres3 : tryReserve (connectAccount s aid t1 sock).1.lastConnectionTime
        aid t3 = none :=
      tryReserve_elapsed _ aid t3 t1 hrec (by omega)
    exact (connectAccount_allowed _ aid t3 sock3 hres3).2 n

/-- Witness for C5 at the fixture state: attempts at `t=1000` and `t=2000`
for account `1`; the first is allowed and recorded, the second rejected with
a positive remaining time, and any attempt at `t ≥ 31000` is allowed. -/
theorem rate_limiter_C5_witness :
    (∀ n, (connectAccount stA 1 1000 100).2 ≠
        Except.error (ConnErr.rateLimited n)) ∧
    mget (connectAccount stA 1 1000 100).1.lastConnectionTime 1 = some 1000 ∧
    (∃ r, 0 < r ∧
      (connectAccount (connectAccount stA 1 1000 100).1 1 2000 101).2 =
        Except.error (ConnErr.rateLimited r)) ∧
    (∀ t3 sock3, 1000 + CONNECTION_COOLDOWN ≤ t3 → ∀ n,
      (connectAccount (connectAccount stA 1 1000 100).1 1 t3 sock3).2 ≠
        Except.error (ConnErr.rateLimited n)) :=
  rate_limiter_C5 stA 1 1000 2000 100 101 rfl (by decide) (by decide)
    (by decide)

/-- Claim C6: a connection-closed event with reason `loggedOut` never
schedules a reconnect, persists status `disconnected`, clears the QR
payload, and clears the account's retry counter and rate-limit tracking
(and its registry entry). -/
theorem loggedOut_no_reconnect_C6 (s : St) (aid sockH : Nat)
    (su msg : Option String) (now : Nat) :
    (handleConnectionUpdate s aid sockH su
        ⟨none, some .closed, some .loggedOut, msg⟩ now).scheduledReconnects =
      s.scheduledReconnects ∧
    mget (handleConnectionUpdate s aid sockH su
        ⟨none, some .closed, some .loggedOut, msg⟩ now).accounts aid =
      (mget s.accounts aid).map
        (fun a => { a with status := .disconnected, qr_code := none }) ∧
    mget (handleConnectionUpdate s aid sockH su
        ⟨none, some .closed, some .loggedOut, msg⟩ now).retryCount aid = none ∧
    mget (handleConnectionUpdate s aid sockH su
        ⟨none, some .closed, some .loggedOut, msg⟩ now).lastConnectionTime aid =
      none ∧
    mget (handleConnectionUpdate s aid sockH su
        ⟨none, some .closed, some .loggedOut, msg⟩ now).sessions aid = none := by
  have hsar : ∀ m, shouldAttemptReconnect (some DisconnectReason.loggedOut) m =
      false := by
    intro m; simp [shouldAttemptReconnect]
  simp [handleConnectionUpdate, hsar, mget_mdel_self, mget_mupd_self]

/-- Claim C2 (divergence evaluation): a connection-closed event with reason
`forbidden` or `banned` schedules no reconnect, but — because
`shouldAttemptReconnect` already filters these codes out before the
`isPermanentError` branch can run — the handler takes the logged-out branch
and persists status `disconnected`, not `error` as the specification states.
The last two conjuncts exhibit the code's own `isPermanentError` classifying
both codes as permanent (whose branch would persist `error`), which that
filtering makes unreachable. -/
theorem forbidden_banned_close_C2 :
    (mget (handleConnectionUpdate stA 1 100 none
        ⟨none, some .closed, some .forbidden, some "Connection Failure"⟩
        0).accounts 1).map AccountRow.status =
      some AccountStatus.disconnected ∧
    (handleConnectionUpdate stA 1 100 none
        ⟨none, some .closed, some .forbidden, some "Connection Failure"⟩
        0).scheduledReconnects = [] ∧
    (mget (handleConnectionUpdate stA 1 100 none
        ⟨none, some .closed, some .banned, some "Stream Errored"⟩
        0).accounts 1).map AccountRow.status =
      some AccountStatus.disconnected ∧
    (handleConnectionUpdate stA 1 100 none
        ⟨none, some .closed, some .banned, some "Stream Errored"⟩
        0).scheduledReconnects = [] ∧
    isPermanentError (some DisconnectReason.forbidden) = true ∧
    isPermanentError (some DisconnectReason.banned) = true := by
  refine ⟨rfl, rfl, rfl, rfl, rfl, rfl⟩

/-- Counterexample to claim C9 as stated: at a state where account `1` has
`retryAttempt = 3`, a connection-opened event leaves the retry counter at 3
— the open handler does not reset it to 0 (the reset lives in the reconnect
timer callback, after a successful `connectAccount`, not here). -/
theorem open_keeps_retry_C9_cex :
    mget (handleConnectionOpen st9 1 (some "222:5@s.whatsapp.net")
        100).retryCount 1 = some 3 ∧
    ¬ mget (handleConnectionOpen st9 1 (some "222:5@s.whatsapp.net")
        100).retryCount 1 = some 0 := by
  have h : mget (handleConnectionOpen st9 1 (some "222:5@s.whatsapp.net")
      100).retryCount 1 = some 3 := rfl
  exact ⟨h, by rw [h]; decide⟩

/-- Claim C9 (amended): for every connection-opened event the handler
persists `status=connected`, clears the QR payload, records the connection
time and the resolved identity fields (name and detected phone), and
appends exactly one audit event — `phone_updated` when a phone was resolved
and a previously stored phone exists and differs, else `connected` — while
leaving the retry counter, rate-limit tracking, session registry and
reconnect timers untouched. -/
theorem open_handler_effects_C9 (s : St) (aid now : Nat) (su : Option String) :
    mget (handleConnectionOpen s aid su now).accounts aid =
      (mget s.accounts aid).map (fun a =>
        { a with
          name := some (resolveName
            ((mget s.accounts aid).bind (fun b => b.name)) aid),
          phone := detectPhone su,
          status := .connected, qr_code := none,
          last_connected := some now }) ∧
    (handleConnectionOpen s aid su now).retryCount = s.retryCount ∧
    (handleConnectionOpen s aid su now).lastConnectionTime =
      s.lastConnectionTime ∧
    (handleConnectionOpen s aid su now).sessions = s.sessions ∧
    (handleConnectionOpen s aid su now).scheduledReconnects =
      s.scheduledReconnects ∧
    ∃ d, (handleConnectionOpen s aid su now).logs = s.logs ++
      [{ account_id := aid,
         action := if phoneChangedB (detectPhone su)
             ((mget s.accounts aid).bind (fun b => b.phone))
           then "phone_updated" else "connected",
         description := d }] := by
  refine ⟨?_, rfl, rfl, rfl, rfl, ⟨_, rfl⟩⟩
  show mget (mupd s.accounts aid _) aid = _
  rw [mget_mupd_self]

/-- Counterexample to claim C4 as stated: two successful `connectAccount`
calls for account `1` (39 s apart, so the rate limiter allows both) leave
BOTH sockets live — the first handle is never logged out or otherwise torn
down before the second is created and registered; only the registry entry
is overwritten. -/
theorem connect_duplicate_handles_C4_cex :
    (connectAccount stA 1 1000 100).2 = Except.ok 100 ∧
    (connectAccount (connectAccount stA 1 1000 100).1 1 40000 101).2 =
      Except.ok 101 ∧
    (connectAccount (connectAccount stA 1 1000 100).1 1 40000
        101).1.liveHandles = [(1, 100), (1, 101)] ∧
    (connectAccount (connectAccount stA 1 1000 100).1 1 40000
        101).1.logouts = [] ∧
    mget (connectAccount (connectAccount stA 1 1000 100).1 1 40000
        101).1.sessions 1 = some 101 := by
  refine ⟨rfl, rfl, rfl, rfl, rfl⟩

/-- Claim C4 (amended): `connectAccount` performs no teardown of an existing
handle — a successful call logs nothing out and appends the new socket to
the live handles, leaving any previously live handle for the same account
live (though unregistered); the registry entry is simply overwritten with
the new socket, so the registry itself still maps the account to exactly one
handle.  Teardown happens only in `disconnectAccount`/`forceReconnectAccount`. -/
theorem connect_no_teardown_C4 (s : St) (aid now sock h' : Nat)
    (h : (connectAccount s aid now sock).2 = Except.ok h') :
    (connectAccount s aid now sock).1.logouts = s.logouts ∧
    (connectAccount s aid now sock).1.liveHandles =
      s.liveHandles ++ [(aid, sock)] ∧
    mget (connectAccount s aid now sock).1.sessions aid = some sock := by
  cases ht : tryReserve s.lastConnectionTime aid now with
  | some r => simp [connectAccount, ht] at h
  | none =>
    cases hacc : mget s.accounts aid with
    | none => simp [connectAccount, ht, hacc] at h
    | some a =>
      simp [connectAccount, ht, hacc, setStatus, mget_mset_self]

/-- Witness for the amended C4 at the fixture state: one successful connect
for account `1` appends the handle, logs nothing out, and registers it. -/
theorem connect_no_teardown_C4_witness :
    (connectAccount stA 1 1000 100).1.logouts = [] ∧
    (connectAccount stA 1 1000 100).1.liveHandles = [(1, 100)] ∧
    mget (connectAccount stA 1 1000 100).1.sessions 1 = some 100 := by
  have h := connect_no_teardown_C4 stA 1 1000 100 100 rfl
  simpa [stA] using h

/-- Counterexample to claim C3 as stated: in a single-message pass whose
send succeeds, the trace ends with a `slept` event — the inter-message sleep
is NOT skipped after the final message of the pass. -/
theorem sleep_after_final_C3_cex :
    (runLoop (fun _ => some CampaignStatus.running) (fun _ => Except.ok ())
        2000 [msgA] 0).trace = [DEvent.sentMsg 1, DEvent.slept 2000] ∧
    (runLoop (fun _ => some CampaignStatus.running) (fun _ => Except.ok ())
        2000 [msgA] 0).trace.getLast? = some (DEvent.slept 2000) := by
  refine ⟨rfl, rfl⟩

/-- Claim C3 (amended): in every dispatch pass, the inter-message sleep of
`delaySeconds` occurs immediately after each successfully sent message —
including the final one of the pass — and nowhere else (in particular, no
sleep follows a failed message). -/
theorem sleeps_follow_sends_C3 (statusAt : Nat → Option CampaignStatus)
    (sendAt : Nat → Except String Unit) (d : Nat) (msgs : List CMsg)
    (i : Nat) :
    sleepsExactlyAfterSends (runLoop statusAt sendAt d msgs i).trace = true := by
  induction msgs generalizing i with
  | nil => rfl
  | cons m rest ih =>
    by_cases hst : statusAt i = some CampaignStatus.running
    · cases hsend : sendAt i with
      | ok u =>
        simpa [runLoop, hst, hsend, sleepsExactlyAfterSends] using ih (i + 1)
      | error e =>
        simpa [runLoop, hst, hsend, sleepsExactlyAfterSends] using ih (i + 1)
    · simp [runLoop, hst, sleepsExactlyAfterSends]

/-- Claim C7: a send with no live handle registered for the account fails
with `Account not connected`, and a dispatch pass whose sends all hit this
failure marks each message `failed` with that error text, counts every
failure, sends nothing — and still reaches every pending message instead of
aborting. -/
theorem send_not_connected_C7 (sessions : List (Nat × Nat)) (aid : Nat)
    (transportSend : Nat → Except String Unit)
    (h : mget sessions aid = none) :
    sendMessageCore sessions aid transportSend =
      Except.error "Account not connected" ∧
    ∀ msgs : List CMsg, ∀ i d : Nat,
      (runLoop (fun _ => some CampaignStatus.running)
          (fun _ => sendMessageCore sessions aid transportSend) d msgs i).msgs =
        msgs.map (fun m => { m with status := .failed, error_message := some "Account not connected" }) ∧
      (runLoop (fun _ => some CampaignStatus.running)
          (fun _ => sendMessageCore sessions aid transportSend) d msgs
          i).failedCount = msgs.length ∧
      (runLoop (fun _ => some CampaignStatus.running)
          (fun _ => sendMessageCore sessions aid transportSend) d msgs
          i).sentCount = 0 := by
  have hcore : sendMessageCore sessions aid transportSend =
      Except.error "Account not connected" := by
    simp [sendMessageCore, h]
  refine ⟨hcore, ?_⟩
  have hsend : (fun _ : Nat => sendMessageCore sessions aid transportSend) =
      (fun _ : Nat => (Except.error "Account not connected" :
        Except String Unit)) :=
    funext (fun _ => hcore)
  rw [hsend]
  intro msgs
  induction msgs with
  | nil => intro i d; simp [runLoop]
  | cons m rest ih =>
    intro i d
    obtain ⟨h1, h2, h3⟩ := ih (i + 1) d
    simp [runLoop, h1, h2, h3]

/-- Witness for C7: an empty registry and a two-message pass — both messages
end `failed` with the `Account not connected` text and the pass completes. -/
theorem send_not_connected_C7_witness :
    sendMessageCore [] 1 (fun _ => Except.ok ()) =
      Except.error "Account not connected" ∧
    (runLoop (fun _ => some CampaignStatus.running)
        (fun _ => sendMessageCore [] 1 (fun _ => Except.ok ())) 7
        [msgA, msgB] 0).msgs =
      [msgA, msgB].map (fun m => { m with status := .failed, error_message := some "Account not connected" }) ∧
    (runLoop (fun _ => some CampaignStatus.running)
        (fun _ => sendMessageCore [] 1 (fun _ => Except.ok ())) 7
        [msgA, msgB] 0).failedCount = 2 ∧
    (runLoop (fun _ => some CampaignStatus.running)
        (fun _ => sendMessageCore [] 1 (fun _ => Except.ok ())) 7
        [msgA, msgB] 0).sentCount = 0 := by
  have h := send_not_connected_C7 [] 1 (fun _ => Except.ok ()) rfl
  exact ⟨h.1, (h.2 [msgA, msgB] 0 7).1, (h.2 [msgA, msgB] 0 7).2.1,
    (h.2 [msgA, msgB] 0 7).2.2⟩

/-- Claim C8: if the per-iteration status re-check observes a non-`running`
status at iteration `k` (having observed `running` before it), the loop
stops there: the messages from position `k` on are returned exactly as they
were — no message after the pause point leaves `pending` — and at most `k`
messages were sent or failed by the pass. -/
theorem pause_preserves_suffix_C8 (statusAt : Nat → Option CampaignStatus)
    (sendAt : Nat → Except String Unit) (d : Nat) (msgs : List CMsg)
    (i k : Nat)
    (hrun : ∀ j, j < k → statusAt (i + j) = some CampaignStatus.running)
    (hstop : statusAt (i + k) ≠ some CampaignStatus.running) :
    (runLoop statusAt sendAt d msgs i).msgs.drop k = msgs.drop k ∧
    (runLoop statusAt sendAt d msgs i).msgs.length = msgs.length ∧
    (runLoop statusAt sendAt d msgs i).sentCount +
        (runLoop statusAt sendAt d msgs i).failedCount ≤ k := by
  induction msgs generalizing i k with
  | nil => simp [runLoop]
  | cons m rest ih =>
    cases k with
    | zero =>
      have h0 : ¬ statusAt i = some CampaignStatus.running := by
        simpa using hstop
      simp [runLoop, h0]
    | succ n =>
      have h0 : statusAt i = some CampaignStatus.running := by
        simpa using hrun 0 (by omega)
      have hrun' : ∀ j, j < n → statusAt (i + 1 + j) =
          some CampaignStatus.running := by
        intro j hj
        have e : i + 1 + j = i + (j + 1) := by omega
        rw [e]
        exact hrun (j + 1) (by omega)
      have hstop' : statusAt (i + 1 + n) ≠ some CampaignStatus.running := by
        have e : i + 1 + n = i + (n + 1) := by omega
        rw [e]
        exact hstop
      obtain ⟨d1, d2, d3⟩ := ih (i + 1) n hrun' hstop'
      cases hsend : sendAt i with
      | ok u =>
        refine ⟨by simpa [runLoop, h0, hsend] using d1,
          by simpa [runLoop, h0, hsend] using d2, ?_⟩
        simp [runLoop, h0, hsend]
        omega
      | error e =>
        refine ⟨by simpa [runLoop, h0, hsend] using d1,
          by simpa [runLoop, h0, hsend] using d2, ?_⟩
        simp [runLoop, h0, hsend]
        omega

/-- Witness for C8: statuses are `running` for the first iteration only and
`paused` from the second on; of three pending messages the loop leaves the
second and third exactly as they were. -/
theorem pause_preserves_suffix_C8_witness :
    (runLoop (fun j => if j < 1 then some CampaignStatus.running
        else some CampaignStatus.paused) (fun _ => Except.ok ()) 4
        [msgA, msgB, msgC] 0).msgs.drop 1 = [msgB, msgC] ∧
    (runLoop (fun j => if j < 1 then some CampaignStatus.running
        else some CampaignStatus.paused) (fun _ => Except.ok ()) 4
        [msgA, msgB, msgC] 0).msgs.length = 3 ∧
    (runLoop (fun j => if j < 1 then some CampaignStatus.running
        else some CampaignStatus.paused) (fun _ => Except.ok ()) 4
        [msgA, msgB, msgC] 0).sentCount +
      (runLoop (fun j => if j < 1 then some CampaignStatus.running
        else some CampaignStatus.paused) (fun _ => Except.ok ()) 4
        [msgA, msgB, msgC] 0).failedCount ≤ 1 := by
  have h := pause_preserves_suffix_C8
    (fun j => if j < 1 then some CampaignStatus.running
      else some CampaignStatus.paused)
    (fun _ => Except.ok ()) 4 [msgA, msgB, msgC] 0 1
    (by intro j hj; simp [show j = 0 from by omega])
    (by decide)
  exact ⟨by rw [h.1]; decide, h.2.1, h.2.2⟩

/-- Claim C10: invoking the dispatcher for a campaign id that is missing or
whose status is not `running` throws `Campaign not found or not running`,
and the catch block unconditionally persists `status=cancelled` on that id —
the prior status (for instance `paused`) is not preserved. -/
theorem not_running_cancels_C10 (db : CampaignDB)
    (statusAt : Nat → Option CampaignStatus) (sendAt : Nat → Except String Unit)
    (now cid : Nat)
    (h : ∀ c, mget db.campaigns cid = some c →
      c.status ≠ CampaignStatus.running) :
    (sendBulkMessages db statusAt sendAt now cid).2 =
      Except.error "Campaign not found or not running" ∧
    ∀ c', mget (sendBulkMessages db statusAt sendAt now cid).1.campaigns cid =
      some c' → c'.status = CampaignStatus.cancelled := by
  have hfind : findRunningCampaign db cid = none := by
    unfold findRunningCampaign
    cases hc : mget db.campaigns cid with
    | none => rfl
    | some c => simp [h c hc]
  constructor
  · simp [sendBulkMessages, hfind]
  · intro c' hc'
    simp only [sendBulkMessages, hfind] at hc'
    rw [mget_mupd_self] at hc'
    cases hcc : mget db.campaigns cid with
    | none => rw [hcc] at hc'; simp at hc'
    | some c =>
      rw [hcc] at hc'
      simp only [Option.map_some'] at hc'
      cases hc'
      rfl

/-- Witness for C10: dispatching campaign `9`, which is `paused` in the
fixture database, yields the not-running error and leaves the campaign
`cancelled`. -/
theorem not_running_cancels_C10_witness :
    (sendBulkMessages dbPaused (fun _ => some CampaignStatus.running)
        (fun _ => Except.ok ()) 3 9).2 =
      Except.error "Campaign not found or not running" ∧
    ∀ c', mget (sendBulkMessages dbPaused (fun _ => some CampaignStatus.running)
        (fun _ => Except.ok ()) 3 9).1.campaigns 9 =
      some c' → c'.status = CampaignStatus.cancelled := by
  refine not_running_cancels_C10 dbPaused _ _ 3 9 ?_
  intro c hc
  have he : mget dbPaused.campaigns 9 =
      some { account_id := 1, status := CampaignStatus.paused,
             delay_seconds := 5, sent_count := 0, failed_count := 0,
             completed_at := none } := rfl
  rw [he] at hc
  cases hc
  decide

end Wazper
